import Mathlib

/-!
Verification development for the BallGift repository (src/bot.py and
src/gift_worker.py): a chat game bot with a virtual-star ledger, a
per-conversation game lock, a referral state machine, a payment
correlator and an asynchronous gift-fulfilment worker.

Each definition below is a shallow embedding of the corresponding
Python function, translated directly from the source.  Machine integers
are modelled as Lean Int (Postgres BIGINT never overflows in the
quantities involved); fallible external calls are modelled as explicit
Boolean/Option parameters.
-/

namespace BallGift

/-! ## Session outcome classification (bot.py, start_game_flow)

After emitting the dice messages, the flow collects the dice values in
a list `results` and counts `hits` as the values that are at least 4;
`win = len(results) > 0 and hits == len(results)`.  On the non-win
branch, when `results` is empty the text includes the explicit line
"⚠️ Не удалось отправить ни одного мяча." (nothing was sent). -/

def hits (results : List Int) : Nat :=
  (results.filter (fun v => decide ((4:Int) ≤ v))).length

def winOutcome (results : List Int) : Bool :=
  decide (0 < results.length) && decide (hits results = results.length)

inductive ThrowLine
  | hit
  | miss
  | nothingSent
  deriving DecidableEq

def loss_summary (results : List Int) : List ThrowLine :=
  if results.isEmpty then [ThrowLine.nothingSent]
  else results.map (fun v => if (4:Int) ≤ v then ThrowLine.hit else ThrowLine.miss)

theorem hits_eq_length_iff (results : List Int) :
    hits results = results.length ↔ ∀ v ∈ results, (4:Int) ≤ v := by
  induction results with
  | nil => simp [hits]
  | cons a l ih =>
      unfold hits at ih ⊢
      by_cases h : (4:Int) ≤ a
      · simp [List.filter_cons, h, ih]
      · have hle := List.length_filter_le (fun v => decide ((4:Int) ≤ v)) l
        constructor
        · intro hcnt
          exfalso
          simp [List.filter_cons, h] at hcnt
          omega
        · intro hall
          exact absurd (hall a (List.mem_cons_self a l)) h

/-! ## Ledger (bot.py, change_user_virtual / set_user_virtual)

change_user_virtual, SQL path:
  UPDATE users SET virtual_stars = GREATEST(virtual_stars + delta, 0);
the in-memory fallback computes max(rec + delta, 0) — both clamp.

set_user_virtual, SQL path:
  INSERT ... ON CONFLICT DO UPDATE SET virtual_stars = value
stores the raw value with no clamp; only the in-memory fallback
computes max(value, 0). -/

def change_user_virtual (balance delta : Int) : Int :=
  max (balance + delta) 0

def set_user_virtual_db (value : Int) : Int :=
  value

def set_user_virtual_mem (value : Int) : Int :=
  max value 0

inductive LedgerOp
  | adjust (delta : Int)
  | setAbs (value : Int)
  deriving DecidableEq

def applyOp (balance : Int) : LedgerOp → Int
  | LedgerOp.adjust d => change_user_virtual balance d
  | LedgerOp.setAbs v => set_user_virtual_db v

def runOps (balance : Int) (ops : List LedgerOp) : Int :=
  ops.foldl applyOp balance

theorem runOps_cons (balance : Int) (op : LedgerOp) (rest : List LedgerOp) :
    runOps balance (op :: rest) = runOps (applyOp balance op) rest := rfl

/-! ## Per-conversation game lock (bot.py, game_locks / start_game_flow)

game_locks is a dict chat_id → bool; `game_locks.get(chat_id)` returns
a falsy value for missing keys, `game_locks[chat_id] = True` sets it,
and the `finally:` clause of start_game_flow pops the key.  Modelled as
a total function Int → Bool (missing key = false). -/

inductive BeginResult
  | Running
  | Busy
  deriving DecidableEq

def setLock (locks : Int → Bool) (chat : Int) (v : Bool) : Int → Bool :=
  fun c => if c = chat then v else locks c

def tryAcquire (locks : Int → Bool) (chat : Int) : BeginResult × (Int → Bool) :=
  if locks chat then (BeginResult.Busy, locks)
  else (BeginResult.Running, setLock locks chat true)

def release (locks : Int → Bool) (chat : Int) : Int → Bool :=
  setLock locks chat false

/-! ## Referral state machine (bot.py, increment_referred_play)

The link row is (inviter, plays, rewarded); on a play by the referred
user: no row → return; rewarded → return; otherwise plays += 1 and if
plays >= 5 set rewarded = TRUE and credit the inviter's virtual balance
with +3 via change_user_virtual. -/

structure RefLink where
  inviter : Int
  plays : Nat
  rewarded : Bool
  deriving DecidableEq

structure RefState where
  link : Option RefLink
  inviterBalance : Int
  deriving DecidableEq

def increment_referred_play (s : RefState) : RefState :=
  match s.link with
  | none => s
  | some l =>
      if l.rewarded then s
      else
        let plays := l.plays + 1
        if 5 ≤ plays then
          { link := some { inviter := l.inviter, plays := plays, rewarded := true },
            inviterBalance := change_user_virtual s.inviterBalance 3 }
        else
          { link := some { inviter := l.inviter, plays := plays, rewarded := false },
            inviterBalance := s.inviterBalance }

theorem ref_iterate_le_four (inviter b : Int) :
    ∀ n : Nat, n ≤ 4 →
      increment_referred_play^[n] ⟨some ⟨inviter, 0, false⟩, b⟩
        = ⟨some ⟨inviter, n, false⟩, b⟩ := by
  intro n
  induction n with
  | zero => intro _; rfl
  | succ k ih =>
      intro hk
      rw [Function.iterate_succ_apply', ih (by omega)]
      simp [increment_referred_play]
      omega

theorem ref_iterate_five (inviter b : Int) :
    increment_referred_play^[5] ⟨some ⟨inviter, 0, false⟩, b⟩
      = ⟨some ⟨inviter, 5, true⟩, max (b + 3) 0⟩ := by
  have h4 := ref_iterate_le_four inviter b 4 (by omega)
  show increment_referred_play^[4 + 1] _ = _
  rw [Function.iterate_succ_apply', h4]
  simp [increment_referred_play, change_user_virtual]

theorem ref_rewarded_fixed (inviter c : Int) (p : Nat) :
    increment_referred_play ⟨some ⟨inviter, p, true⟩, c⟩
      = ⟨some ⟨inviter, p, true⟩, c⟩ := by
  simp [increment_referred_play]

theorem ref_iterate_ge_five (inviter b : Int) :
    ∀ n : Nat, 5 ≤ n →
      increment_referred_play^[n] ⟨some ⟨inviter, 0, false⟩, b⟩
        = ⟨some ⟨inviter, 5, true⟩, max (b + 3) 0⟩ := by
  intro n hn
  induction n with
  | zero => omega
  | succ k ih =>
      rcases Nat.lt_or_ge 5 (k + 1) with h | h
      · rw [Function.iterate_succ_apply', ih (by omega), ref_rewarded_fixed]
      · have hk5 : k + 1 = 5 := by omega
        rw [hk5]
        exact ref_iterate_five inviter b

/-! ## Reward task queue (bot.py add_pending_gift, gift_worker.py)

bot.py inserts a row (user_id, amount_stars, premium, status='pending')
into pending_gifts.  GIFT_VALUES = normal 15, premium 25, and
start_game_flow picks gift_cost = GIFT_VALUES["premium"] if premium
else GIFT_VALUES["normal"].

gift_worker.py processes a claimed task: on purchase_and_send success
it marks the row 'sent'; otherwise it marks it 'failed' and calls
refund_bot_stars, whose row-present path runs
  UPDATE bot_state SET value = GREATEST(value + amount, 0)
on the shared key 'bot_stars'. -/

inductive TaskStatus
  | pending
  | processing
  | sent
  | failed
  deriving DecidableEq

structure PendingGift where
  user_id : Int
  amount_stars : Int
  premium : Bool
  status : TaskStatus
  deriving DecidableEq

def GIFT_VALUE_normal : Int := 15

def GIFT_VALUE_premium : Int := 25

def gift_cost (premium : Bool) : Int :=
  if premium then GIFT_VALUE_premium else GIFT_VALUE_normal

def add_pending_gift (user : Int) (amount : Int) (premium : Bool) : PendingGift :=
  { user_id := user, amount_stars := amount, premium := premium,
    status := TaskStatus.pending }

def refund_bot_stars (pool : Int) (amount : Int) : Int :=
  max (pool + amount) 0

structure WorkerTaskResult where
  status : TaskStatus
  pool : Int
  deriving DecidableEq

def process_task (pool : Int) (amount : Int) (purchaseOk : Bool) : WorkerTaskResult :=
  if purchaseOk then { status := TaskStatus.sent, pool := pool }
  else { status := TaskStatus.failed, pool := refund_bot_stars pool amount }

/-! ## Win-path gift resolution (bot.py, start_game_flow win branch)

On a win the flow reads the bot's real star balance; if it covers the
gift cost it attempts a direct send via try_send_real_gift, and only
when that fails (or the balance is short) does it enqueue a pending
gift row.  The loss branch never enqueues. -/

def win_gift_flow (user : Int) (premium : Bool) (botBalance : Int)
    (directSendOk : Bool) : List PendingGift :=
  let cost := gift_cost premium
  if cost ≤ botBalance then
    if directSendOk then [] else [add_pending_gift user cost premium]
  else [add_pending_gift user cost premium]

def resolve_outcome (user : Int) (premium : Bool) (botBalance : Int)
    (directSendOk : Bool) (win : Bool) : List PendingGift :=
  if win then win_gift_flow user premium botBalance directSendOk else []

/-! ## Full game flow lock lifecycle (bot.py, start_game_flow)

start_game_flow: if the user is banned it returns ("banned") without
touching the lock; if game_locks.get(chat_id) is truthy it returns
("busy"); otherwise it sets the lock, runs the body (throws, outcome,
messages — any of which may raise), and the `finally:` clause pops the
lock on every exit path. -/

inductive BodyOutcome
  | winB
  | lossB
  | exc
  deriving DecidableEq

inductive FlowResult
  | bannedR
  | busyR
  | completed (won : Bool)
  | crashed
  deriving DecidableEq

def start_game_flow (locks : Int → Bool) (chat : Int) (userBanned : Bool)
    (body : BodyOutcome) : FlowResult × (Int → Bool) :=
  if userBanned then (FlowResult.bannedR, locks)
  else
    match tryAcquire locks chat with
    | (BeginResult.Busy, l) => (FlowResult.busyR, l)
    | (BeginResult.Running, l) =>
        (match body with
         | BodyOutcome.winB => FlowResult.completed true
         | BodyOutcome.lossB => FlowResult.completed false
         | BodyOutcome.exc => FlowResult.crashed,
         release l chat)

/-! ## Free-tier cooldown (bot.py, play_callback cost == 0 branch)

play_callback first rejects when game_locks.get(chat_id) is set; the
zero-cost branch then reads free_next and, if now < free_next, answers
with the remaining time rem = free_next - now and returns; otherwise
it sets free_next = now + FREE_COOLDOWN and starts the game. -/

def FREE_COOLDOWN : Int := 3 * 60

inductive FreeOutcome
  | busyF
  | cooldownActive (remaining : Int)
  | started
  deriving DecidableEq

def play_free (locks : Int → Bool) (chat : Int) (now free_next : Int) :
    FreeOutcome × Int :=
  if locks chat then (FreeOutcome.busyF, free_next)
  else if now < free_next then (FreeOutcome.cooldownActive (free_next - now), free_next)
  else (FreeOutcome.started, now + FREE_COOLDOWN)

/-! ## Payment correlator (bot.py, on_successful_payment)

The invoice payload is "buy_and_play:{payer}:{cnt}:{prem}:{ts}" and the
handler splits it on ":".  With len(parts) >= 4 it decodes
cnt = int(parts[2]) if parts[2].isdigit() else 1 and
prem_flag = int(parts[3]) if parts[3].isdigit() else 0; otherwise
cnt = 1, prem_flag = 0.  It pops invoice_map to find the origin chat
(default: the payer), computes paid_stars = total_amount //
STAR_UNIT_MULTIPLIER, records spent when paid_stars > 0, resets the
payer's virtual balance to 0 via set_user_virtual, and then — only if
the origin chat is not locked — calls start_game_flow with the decoded
parameters and paid_real_amount = paid_stars. -/

def STAR_UNIT_MULTIPLIER : Int := 1

/-- ASCII decimal digit test, as used by Python str.isdigit on the
payload fields (which are ASCII decimal strings). -/
def isDigitChar (c : Char) : Bool :=
  decide ('0' ≤ c) && decide (c ≤ '9')

/-- Python s.isdigit(): nonempty and every character a digit.
Strings are modelled as their character lists. -/
def str_isdigit (s : List Char) : Bool :=
  !s.isEmpty && s.all isDigitChar

/-- Decimal value of an all-digit string, as computed by Python int(s)
on a string that passed isdigit. -/
def str_toNat (s : List Char) : Nat :=
  s.foldl (fun acc c => acc * 10 + (c.toNat - Char.toNat '0')) 0

/-- Python int(s) on an optionally signed decimal string; a ValueError
(any other shape) is modelled as none, matching the try/except around
the call sites. -/
def str_toIntOpt (s : List Char) : Option Int :=
  match s with
  | [] => none
  | '-' :: rest => if str_isdigit rest then some (-(str_toNat rest : Int)) else none
  | '+' :: rest => if str_isdigit rest then some ((str_toNat rest : Int)) else none
  | _ => if str_isdigit s then some ((str_toNat s : Int)) else none

def decodeCnt (parts : List (List Char)) : Nat :=
  if 4 ≤ parts.length then
    match parts.get? 2 with
    | some s => if str_isdigit s then str_toNat s else 1
    | none => 1
  else 1

def decodePremFlag (parts : List (List Char)) : Nat :=
  if 4 ≤ parts.length then
    match parts.get? 3 with
    | some s => if str_isdigit s then str_toNat s else 0
    | none => 0
  else 0

def decodePrem (parts : List (List Char)) : Bool :=
  decide (decodePremFlag parts ≠ 0)

structure PayState where
  locks : Int → Bool
  balance : Int → Int
  spent : Int → Int

inductive PayEvent
  | sessionStarted (chat : Int) (cnt : Nat) (prem : Bool) (paid : Int)
  | deferredBusy
  deriving DecidableEq

def on_successful_payment (s : PayState) (payer : Int) (mappedOrigin : Option Int)
    (parts : List (List Char)) (totalAmount : Int) : PayState × PayEvent :=
  let cnt := decodeCnt parts
  let prem := decodePrem parts
  let originChat := mappedOrigin.getD payer
  let paid_stars := totalAmount / STAR_UNIT_MULTIPLIER
  let s1 : PayState :=
    if 0 < paid_stars then
      { s with spent := fun u => if u = payer then s.spent u + paid_stars else s.spent u }
    else s
  let s2 : PayState :=
    { s1 with balance := fun u => if u = payer then set_user_virtual_db 0 else s1.balance u }
  if s2.locks originChat then (s2, PayEvent.deferredBusy)
  else (s2, PayEvent.sessionStarted originChat cnt prem paid_stars)

/-! ## Referral registration (bot.py, cmd_start / register_ref_visit)

cmd_start extracts the start payload, parses it with int(payload)
inside try/except, and calls register_ref_visit(uid, inviter) only when
inviter != uid.  register_ref_visit inserts the link row only when no
row for the referred user exists (ON CONFLICT DO NOTHING). -/

structure RefDB where
  links : Int → Option RefLink

def register_ref_visit (db : RefDB) (referred inviter : Int) : RefDB × Bool :=
  match db.links referred with
  | some _ => (db, false)
  | none =>
      ({ links := fun u =>
          if u = referred then some { inviter := inviter, plays := 0, rewarded := false }
          else db.links u }, true)

def cmd_start_ref (db : RefDB) (uid : Int) (payload : List Char) : RefDB :=
  if payload.isEmpty then db
  else
    match str_toIntOpt payload with
    | none => db
    | some inviter => if inviter ≠ uid then (register_ref_visit db uid inviter).1 else db

/-! ## Claim theorems -/

/-- Claim C1: the outcome of a session is a win iff at least one event was
emitted and every emitted value is at least 4 (on the 1..6 dice range);
the zero-event session is classified as a loss and its summary is the
explicit nothing-was-sent line. -/
theorem outcome_win_iff_all_hits (results : List Int) :
    (winOutcome results = true ↔ results ≠ [] ∧ ∀ v ∈ results, (4:Int) ≤ v) ∧
    winOutcome [] = false ∧ loss_summary [] = [ThrowLine.nothingSent] := by
  refine ⟨?_, rfl, rfl⟩
  unfold winOutcome
  rw [Bool.and_eq_true, decide_eq_true_iff, decide_eq_true_iff]
  constructor
  · rintro ⟨hlen, hcnt⟩
    exact ⟨List.ne_nil_of_length_pos hlen, (hits_eq_length_iff results).1 hcnt⟩
  · rintro ⟨hne, hall⟩
    exact ⟨List.length_pos.mpr hne, (hits_eq_length_iff results).2 hall⟩

/-- Claim C2 counterexample: the claim says every ledger mutation clamps at 0,
but the SQL path of set_user_virtual stores the raw value, so setting the
absolute balance to -1 leaves a negative balance. -/
theorem ledger_set_negative_cex :
    runOps 0 [LedgerOp.setAbs (-1)] = -1 ∧ ¬ (0 ≤ runOps 0 [LedgerOp.setAbs (-1)]) := by
  constructor <;> decide

theorem runOps_nonneg : ∀ (ops : List LedgerOp) (balance : Int), 0 ≤ balance →
    (∀ v : Int, LedgerOp.setAbs v ∈ ops → 0 ≤ v) → 0 ≤ runOps balance ops := by
  intro ops
  induction ops with
  | nil => intro balance hb _; simpa [runOps] using hb
  | cons op rest ih =>
      intro balance hb hset
      rw [runOps_cons]
      apply ih
      · cases op with
        | adjust d => exact le_max_right _ _
        | setAbs v => exact hset v (List.mem_cons_self _ _)
      · intro v hv
        exact hset v (List.mem_cons_of_mem _ hv)

/-- Claim C2 (amended): adjustBalance always clamps its result at 0 (an
over-debit returns balance 0, not an error), and the in-memory fallback of
setBalanceAbsolute clamps, but the SQL path of setBalanceAbsolute stores the
raw value; the virtual balance stays non-negative for every sequence of
mutations whose setBalanceAbsolute values are non-negative (the code only
ever passes 0). -/
theorem ledger_nonneg_amended (balance : Int) (ops : List LedgerOp)
    (hb : 0 ≤ balance) (hset : ∀ v : Int, LedgerOp.setAbs v ∈ ops → 0 ≤ v) :
    0 ≤ runOps balance ops ∧
    (∀ b d : Int, b + d < 0 → change_user_virtual b d = 0) ∧
    (∀ v : Int, 0 ≤ set_user_virtual_mem v) := by
  refine ⟨runOps_nonneg ops balance hb hset, ?_, ?_⟩
  · intro b d hbd
    unfold change_user_virtual
    exact max_eq_right (by omega)
  · intro v
    exact le_max_right _ _

/-- Claim C2 witness: a concrete run of the amended statement, starting from
balance 0 with an over-debit, a credit and an absolute reset to 2. -/
theorem ledger_nonneg_amended_witness :
    (0:Int) ≤ 0 ∧
    (0 ≤ runOps 0 [LedgerOp.adjust (-5), LedgerOp.adjust 3, LedgerOp.setAbs 2] ∧
     (∀ b d : Int, b + d < 0 → change_user_virtual b d = 0) ∧
     (∀ v : Int, 0 ≤ set_user_virtual_mem v)) :=
  ⟨by decide,
   ledger_nonneg_amended 0 [LedgerOp.adjust (-5), LedgerOp.adjust 3, LedgerOp.setAbs 2]
     (by decide) (by intro v hv; simp at hv; omega)⟩

/-- Claim C3: while a session is running for a conversation, a further begin
attempt on the same conversation is rejected as busy with the state left
unchanged, so two begin invocations on the same conversation yield exactly
one Running outcome and one Busy rejection. -/
theorem begin_single_flight (locks : Int → Bool) (chat : Int) (h : locks chat = false) :
    (tryAcquire locks chat).1 = BeginResult.Running ∧
    ((tryAcquire locks chat).2) chat = true ∧
    tryAcquire ((tryAcquire locks chat).2) chat
      = (BeginResult.Busy, (tryAcquire locks chat).2) := by
  simp [tryAcquire, h, setLock]

/-- Claim C3 witness: starting with no lock held, conversation 0 acquires and
the second attempt is busy. -/
theorem begin_single_flight_witness :
    ((fun _ : Int => false) 0 = false) ∧
    ((tryAcquire (fun _ => false) 0).1 = BeginResult.Running ∧
     ((tryAcquire (fun _ => false) 0).2) 0 = true ∧
     tryAcquire ((tryAcquire (fun _ => false) 0).2) 0
       = (BeginResult.Busy, (tryAcquire (fun _ => false) 0).2)) :=
  ⟨rfl, begin_single_flight (fun _ => false) 0 rfl⟩

/-- Claim C4: with no link or a rewarded link a play is a no-op; starting
from a fresh link the counter increments per play, the link transitions to
rewarded exactly when the counter reaches 5, and the inviter is credited
exactly +3 in total no matter how many plays beyond the threshold occur. -/
theorem referral_reward_exactly_once (inviter b : Int) (n : Nat) (hb : 0 ≤ b) :
    (∀ bal : Int, increment_referred_play ⟨none, bal⟩ = ⟨none, bal⟩) ∧
    (∀ l : RefLink, ∀ bal : Int, l.rewarded = true →
        increment_referred_play ⟨some l, bal⟩ = ⟨some l, bal⟩) ∧
    (increment_referred_play^[n] ⟨some ⟨inviter, 0, false⟩, b⟩).inviterBalance
      = (if 5 ≤ n then b + 3 else b) ∧
    (increment_referred_play^[n] ⟨some ⟨inviter, 0, false⟩, b⟩).link
      = some ⟨inviter, min n 5, decide (5 ≤ n)⟩ := by
  have hmax : max (b + 3) 0 = b + 3 := max_eq_left (by omega)
  refine ⟨fun bal => rfl, ?_, ?_, ?_⟩
  · intro l bal hl
    simp [increment_referred_play, hl]
  · by_cases h5 : 5 ≤ n
    · rw [ref_iterate_ge_five inviter b n h5, if_pos h5]
      simpa using hmax
    · rw [ref_iterate_le_four inviter b n (by omega), if_neg h5]
  · by_cases h5 : 5 ≤ n
    · rw [ref_iterate_ge_five inviter b n h5]
      simp [Nat.min_eq_right h5, h5]
    · rw [ref_iterate_le_four inviter b n (by omega)]
      simp [Nat.min_eq_left (by omega : n ≤ 5), h5]

/-- Claim C4 witness: seven plays by a referred user with inviter balance 0
credit the inviter exactly 3 and leave the link rewarded at plays = 5. -/
theorem referral_reward_exactly_once_witness :
    (0:Int) ≤ 0 ∧
    ((∀ bal : Int, increment_referred_play ⟨none, bal⟩ = ⟨none, bal⟩) ∧
     (∀ l : RefLink, ∀ bal : Int, l.rewarded = true →
         increment_referred_play ⟨some l, bal⟩ = ⟨some l, bal⟩) ∧
     (increment_referred_play^[7] ⟨some ⟨1, 0, false⟩, 0⟩).inviterBalance
       = (if 5 ≤ 7 then (0:Int) + 3 else 0) ∧
     (increment_referred_play^[7] ⟨some ⟨1, 0, false⟩, 0⟩).link
       = some ⟨1, min 7 5, decide (5 ≤ 7)⟩) :=
  ⟨by decide, referral_reward_exactly_once 1 0 7 (by decide)⟩

/-- Claim C5: a processed reward task whose acquisition/delivery failed is
marked failed and the shared bot_stars pool is credited by exactly the task
amount; a successful task is marked sent and leaves the pool unchanged. -/
theorem failed_task_refund (pool amount : Int) (ok : Bool)
    (hp : 0 ≤ pool) (ha : 0 ≤ amount) :
    ((process_task pool amount ok).status = TaskStatus.failed ↔ ok = false) ∧
    (ok = false → (process_task pool amount ok).pool = pool + amount) ∧
    (ok = true → process_task pool amount ok
        = { status := TaskStatus.sent, pool := pool }) ∧
    0 ≤ (process_task pool amount ok).pool := by
  cases ok with
  | false =>
      refine ⟨by simp [process_task], ?_, by simp, ?_⟩
      · intro _
        show refund_bot_stars pool amount = pool + amount
        unfold refund_bot_stars
        exact max_eq_left (by omega)
      · exact le_max_right _ _
  | true =>
      exact ⟨by simp [process_task], by simp, fun _ => rfl, hp⟩

/-- Claim C5 witness: a failed 15-star task against a pool of 0 leaves the
task failed and the pool at exactly 15. -/
theorem failed_task_refund_witness :
    ((0:Int) ≤ 0 ∧ (0:Int) ≤ 15) ∧
    (((process_task 0 15 false).status = TaskStatus.failed ↔ false = false) ∧
     (false = false → (process_task 0 15 false).pool = 0 + 15) ∧
     (false = true → process_task 0 15 false
         = { status := TaskStatus.sent, pool := 0 }) ∧
     0 ≤ (process_task 0 15 false).pool) :=
  ⟨by constructor <;> decide, failed_task_refund 0 15 false (by decide) (by decide)⟩

/-- Claim C6 counterexample: the claim says every confirmation resumes by
starting a session, but when the origin conversation is locked the handler
informs the payer and returns without starting one: with chat 5 locked, the
confirmation for payer 1 with decoded throw_count 5 produces the deferred
busy event, not a session start. -/
theorem payment_busy_no_resume_cex :
    (on_successful_payment
        { locks := fun c => decide (c = 5), balance := fun _ => 7, spent := fun _ => 0 }
        1 (some 5) ["buy_and_play".data, "1".data, "5".data, "0".data, "99".data] 5).2
      = PayEvent.deferredBusy ∧
    (on_successful_payment
        { locks := fun c => decide (c = 5), balance := fun _ => 7, spent := fun _ => 0 }
        1 (some 5) ["buy_and_play".data, "1".data, "5".data, "0".data, "99".data] 5).2
      ≠ PayEvent.sessionStarted 5 5 false 5 := by
  constructor <;> decide

/-- Claim C6 (amended): on a payment confirmation the handler resets the
payer's virtual balance to zero and records the paid amount against the
lifetime-spent counter; when no session is running in the origin
conversation it resumes by starting a session with the decoded throw_count
and tier, passing the real paid amount through, but when the origin
conversation is busy it defers and does not start a session. -/
theorem payment_confirmation_amended (s : PayState) (payer : Int) (mo : Option Int)
    (parts : List (List Char)) (total : Int) (ht : 0 ≤ total) :
    ((on_successful_payment s payer mo parts total).1.balance payer = 0) ∧
    ((on_successful_payment s payer mo parts total).1.spent payer = s.spent payer + total) ∧
    (s.locks (mo.getD payer) = false →
      (on_successful_payment s payer mo parts total).2
        = PayEvent.sessionStarted (mo.getD payer) (decodeCnt parts) (decodePrem parts) total) ∧
    (s.locks (mo.getD payer) = true →
      (on_successful_payment s payer mo parts total).2 = PayEvent.deferredBusy) := by
  have hdiv : total / STAR_UNIT_MULTIPLIER = total := by
    simp [STAR_UNIT_MULTIPLIER]
  unfold on_successful_payment
  rw [hdiv]
  by_cases hp : 0 < total
  · by_cases hl : s.locks (mo.getD payer) = true
    · simp [hp, hl, set_user_virtual_db]
    · simp [hp, hl, set_user_virtual_db]
  · have ht0 : total = 0 := by omega
    subst ht0
    by_cases hl : s.locks (mo.getD payer) = true
    · simp [hl, set_user_virtual_db]
    · simp [hl, set_user_virtual_db]

/-- Claim C6 witness: an unlocked origin chat 5, payer 1 with balance 7 and a
5-star payment on payload buy_and_play:1:5:0:99 resumes with 5 throws on the
ordinary tier; the balance is reset to 0 and 5 stars are recorded spent. -/
theorem payment_confirmation_witness :
    (0:Int) ≤ 5 ∧
    ((on_successful_payment
        { locks := fun _ => false, balance := fun _ => 7, spent := fun _ => 0 }
        1 (some 5) ["buy_and_play".data, "1".data, "5".data, "0".data, "99".data] 5).1.balance 1
       = 0 ∧
     (on_successful_payment
        { locks := fun _ => false, balance := fun _ => 7, spent := fun _ => 0 }
        1 (some 5) ["buy_and_play".data, "1".data, "5".data, "0".data, "99".data] 5).1.spent 1
       = 0 + 5 ∧
     (false = false →
      (on_successful_payment
        { locks := fun _ => false, balance := fun _ => 7, spent := fun _ => 0 }
        1 (some 5) ["buy_and_play".data, "1".data, "5".data, "0".data, "99".data] 5).2
        = PayEvent.sessionStarted 5
            (decodeCnt ["buy_and_play".data, "1".data, "5".data, "0".data, "99".data])
            (decodePrem ["buy_and_play".data, "1".data, "5".data, "0".data, "99".data]) 5) ∧
     (false = true →
      (on_successful_payment
        { locks := fun _ => false, balance := fun _ => 7, spent := fun _ => 0 }
        1 (some 5) ["buy_and_play".data, "1".data, "5".data, "0".data, "99".data] 5).2
        = PayEvent.deferredBusy)) :=
  ⟨by decide,
   payment_confirmation_amended
     { locks := fun _ => false, balance := fun _ => 7, spent := fun _ => 0 }
     1 (some 5) ["buy_and_play".data, "1".data, "5".data, "0".data, "99".data] 5 (by decide)⟩

/-- Claim C7 counterexample: the claim says every win enqueues exactly one
RewardTask, but when the bot balance covers the cost and the direct gift
send succeeds nothing is enqueued: an ordinary-tier win with bot balance 15
and a successful direct send enqueues zero rows. -/
theorem win_direct_send_no_enqueue_cex :
    resolve_outcome 1 false 15 true true = [] ∧
    ¬ ((resolve_outcome 1 false 15 true true).length = 1) := by
  constructor <;> decide

/-- Claim C7 (amended): a loss never enqueues a RewardTask; a win enqueues
none when the bot balance covers the gift cost and the direct send succeeds,
and otherwise enqueues exactly one pending row whose amount is the tier gift
cost, 15 for the ordinary tier and 25 for the premium tier. -/
theorem win_enqueue_amended (user : Int) (premium : Bool) (botBalance : Int)
    (directSendOk win : Bool) :
    (win = false → resolve_outcome user premium botBalance directSendOk win = []) ∧
    (win = true → gift_cost premium ≤ botBalance → directSendOk = true →
        resolve_outcome user premium botBalance directSendOk win = []) ∧
    (win = true → ¬ (gift_cost premium ≤ botBalance ∧ directSendOk = true) →
        resolve_outcome user premium botBalance directSendOk win
          = [{ user_id := user, amount_stars := gift_cost premium, premium := premium,
               status := TaskStatus.pending }]) ∧
    gift_cost premium = (if premium then 25 else 15) := by
  refine ⟨?_, ?_, ?_, ?_⟩
  · intro hw
    simp [resolve_outcome, hw]
  · intro hw hcost hok
    simp [resolve_outcome, hw, win_gift_flow, hcost, hok]
  · intro hw hno
    by_cases hcost : gift_cost premium ≤ botBalance
    · have hok : directSendOk = false := by
        cases directSendOk with
        | false => rfl
        | true => exact absurd ⟨hcost, rfl⟩ hno
      simp [resolve_outcome, hw, win_gift_flow, hcost, hok, add_pending_gift]
    · simp [resolve_outcome, hw, win_gift_flow, hcost, add_pending_gift]
  · cases premium <;> rfl

/-- Claim C8: in the zero-cost tier, once the busy guard passes, the attempt
is rejected with the remaining cooldown iff the current time is strictly
before the stored cooldown (and the cooldown is then left untouched); when
the check passes the cooldown is reset to now plus the fixed interval as the
game starts. -/
theorem free_cooldown_guard (locks : Int → Bool) (chat : Int) (now free_next : Int)
    (h : locks chat = false) :
    ((play_free locks chat now free_next).1 = FreeOutcome.cooldownActive (free_next - now)
        ↔ now < free_next) ∧
    (now < free_next → (play_free locks chat now free_next).2 = free_next) ∧
    (¬ now < free_next →
      play_free locks chat now free_next = (FreeOutcome.started, now + FREE_COOLDOWN)) := by
  unfold play_free
  by_cases hc : now < free_next <;> simp [h, hc]

/-- Claim C8 witness: at time 100 with cooldown until 160 the free throw is
rejected with 60 seconds remaining; at or past the cooldown it starts and
the cooldown becomes now + 180. -/
theorem free_cooldown_guard_witness :
    ((fun _ : Int => false) 0 = false) ∧
    (((play_free (fun _ => false) 0 100 160).1
        = FreeOutcome.cooldownActive (160 - 100) ↔ (100:Int) < 160) ∧
     ((100:Int) < 160 → (play_free (fun _ => false) 0 100 160).2 = 160) ∧
     (¬ (100:Int) < 160 →
       play_free (fun _ => false) 0 100 160 = (FreeOutcome.started, 100 + FREE_COOLDOWN))) :=
  ⟨rfl, free_cooldown_guard (fun _ => false) 0 100 160 rfl⟩

theorem flow_not_busy (locks : Int → Bool) (chat : Int) (body : BodyOutcome)
    (h : locks chat = false) :
    (start_game_flow locks chat false body).1 ≠ FlowResult.busyR := by
  cases body <;> simp [start_game_flow, tryAcquire, h]

/-- Claim C9: every game-flow invocation that acquires the conversation lock
releases it on termination — win, loss, or an exception escaping the body —
so the conversation returns to idle and a subsequent begin on it is never
rejected as busy. -/
theorem lock_released_on_all_paths (locks : Int → Bool) (chat : Int) (body : BodyOutcome)
    (h : locks chat = false) :
    ((start_game_flow locks chat false body).2 chat = false) ∧
    ((start_game_flow locks chat false body).1 ≠ FlowResult.busyR) ∧
    (∀ body2 : BodyOutcome,
      (start_game_flow (start_game_flow locks chat false body).2 chat false body2).1
        ≠ FlowResult.busyR) := by
  have hstate : (start_game_flow locks chat false body).2 chat = false := by
    cases body <;> simp [start_game_flow, tryAcquire, h, release, setLock]
  exact ⟨hstate, flow_not_busy locks chat body h,
    fun body2 => flow_not_busy _ chat body2 hstate⟩

/-- Claim C9 witness: a crashing body on conversation 0 still releases the
lock and the next attempt is not busy. -/
theorem lock_released_on_all_paths_witness :
    ((fun _ : Int => false) 0 = false) ∧
    (((start_game_flow (fun _ => false) 0 false BodyOutcome.exc).2 0 = false) ∧
     ((start_game_flow (fun _ => false) 0 false BodyOutcome.exc).1 ≠ FlowResult.busyR) ∧
     (∀ body2 : BodyOutcome,
       (start_game_flow (start_game_flow (fun _ => false) 0 false BodyOutcome.exc).2
           0 false body2).1 ≠ FlowResult.busyR)) :=
  ⟨rfl, lock_released_on_all_paths (fun _ => false) 0 BodyOutcome.exc rfl⟩

/-- Claim C10: a start command whose referral payload decodes to the visiting
user's own id does not register a visit, and the no-self-inviter invariant —
every stored ReferralLink has inviter different from the referred user — is
preserved by the start command. -/
theorem register_ref_visit_links (db : RefDB) (referred inviter u : Int) :
    ((register_ref_visit db referred inviter).1).links u
      = if db.links referred = none then
          (if u = referred then
            some { inviter := inviter, plays := 0, rewarded := false }
          else db.links u)
        else db.links u := by
  unfold register_ref_visit
  cases h : db.links referred <;> simp [h]

/-- Claim C10: a start command whose referral payload decodes to the visiting
user's own id does not register a visit, and the no-self-inviter invariant —
every stored ReferralLink has inviter different from the referred user — is
preserved by the start command. -/
theorem no_self_referral (db : RefDB) (uid : Int) (payload : List Char)
    (hinv : ∀ u : Int, ∀ l : RefLink, db.links u = some l → l.inviter ≠ u) :
    (str_toIntOpt payload = some uid → cmd_start_ref db uid payload = db) ∧
    (∀ u : Int, ∀ l : RefLink,
      (cmd_start_ref db uid payload).links u = some l → l.inviter ≠ u) := by
  by_cases he : payload.isEmpty
  · have hdb : cmd_start_ref db uid payload = db := by
      unfold cmd_start_ref
      rw [if_pos he]
    rw [hdb]
    exact ⟨fun _ => rfl, hinv⟩
  · cases hparse : str_toIntOpt payload with
    | none =>
        have hdb : cmd_start_ref db uid payload = db := by
          unfold cmd_start_ref
          rw [if_neg he, hparse]
        rw [hdb]
        exact ⟨fun _ => rfl, hinv⟩
    | some inviter =>
        by_cases hself : inviter = uid
        · subst hself
          have hdb : cmd_start_ref db inviter payload = db := by
            unfold cmd_start_ref
            rw [if_neg he, hparse]
            simp
          rw [hdb]
          exact ⟨fun _ => rfl, hinv⟩
        · have hdb : cmd_start_ref db uid payload = (register_ref_visit db uid inviter).1 := by
            unfold cmd_start_ref
            rw [if_neg he, hparse]
            simp [hself]
          constructor
          · intro hco
            exact absurd (Option.some.inj hco) hself
          · intro u l hl
            rw [hdb, register_ref_visit_links] at hl
            by_cases hdbu : db.links uid = none
            · rw [if_pos hdbu] at hl
              by_cases hu : u = uid
              · rw [if_pos hu] at hl
                subst hu
                injection hl with h2
                rw [← h2]
                exact hself
              · rw [if_neg hu] at hl
                exact hinv u l hl
            · rw [if_neg hdbu] at hl
              exact hinv u l hl

/-- Claim C10 witness: a user visiting with their own id as payload leaves an
empty referral table unchanged, and the invariant holds afterwards. -/
theorem no_self_referral_witness :
    (∀ u : Int, ∀ l : RefLink, (RefDB.mk fun _ => none).links u = some l → l.inviter ≠ u) ∧
    ((str_toIntOpt "7".data = some 7 →
        cmd_start_ref (RefDB.mk fun _ => none) 7 "7".data = RefDB.mk fun _ => none) ∧
     (∀ u : Int, ∀ l : RefLink,
       (cmd_start_ref (RefDB.mk fun _ => none) 7 "7".data).links u = some l → l.inviter ≠ u)) :=
  ⟨fun _ _ h => Option.noConfusion h,
   no_self_referral (RefDB.mk fun _ => none) 7 "7".data (fun _ _ h => Option.noConfusion h)⟩

end BallGift
